import Mathlib

/-! SPHinXsys smoothing kernel core (`shared/kernels/base_kernel.cpp`)

A shallow embedding of `SPH::Kernel` and of the member functions defined in
`base_kernel.cpp`.

* `Real` of the source is embedded as `ℚ`: all statements are about exact
  arithmetic, rounding is not modelled.  Division is Lean's total division
  (`1 / 0 = 0`); no statement below relies on the value of `1 / h` at `h = 0`.
* The data members of the class form the record `Kernel`; a member function
  that mutates the object becomes a function `Kernel → Kernel`, a `const`
  member function becomes a function reading a `Kernel`.
* The virtual members, which `base_kernel.cpp` calls but does not define
  (`setBasicParameters`, `KernelSize`, `W_1D` ... `SmoothingLengthFactor3D`),
  are the fields of `KernelShape`, a parameter of every definition.
* `exit(1)` is embedded as the outcome `Outcome.exited 1 s`, where `s` is the
  object at the moment the process stops.  The text sent to `std::cout` is not
  modelled.
-/

set_option linter.unusedVariables false
set_option linter.dupNamespace false

namespace SPH

/-- Two-component displacement (`Vec2d`). -/
structure Vec2d where
  x : ℚ
  y : ℚ
deriving DecidableEq, Repr

/-- Three-component displacement (`Vec3d`). -/
structure Vec3d where
  x : ℚ
  y : ℚ
  z : ℚ
deriving DecidableEq, Repr

/-- Data members of `class Kernel`, with the member names of the source. -/
structure Kernel where
  kernel_name_ : String
  h_ : ℚ
  inv_h_ : ℚ
  factor_W_1D_ : ℚ
  factor_W_2D_ : ℚ
  factor_W_3D_ : ℚ
  factor_dW_1D_ : ℚ
  factor_dW_2D_ : ℚ
  factor_dW_3D_ : ℚ
  factor_d2W_1D_ : ℚ
  factor_d2W_2D_ : ℚ
  factor_d2W_3D_ : ℚ
  cutoff_radius_ref_ : ℚ
deriving DecidableEq, Repr

/-- Virtual members of `class Kernel` that a concrete kernel family supplies.
`base_kernel.cpp` only calls them, so they are parameters here.
`setBasicParameters` is a mutating member function, hence a state
transformer; the others are evaluated on their real argument. -/
structure KernelShape where
  setBasicParameters : Kernel → Kernel
  KernelSize : ℚ
  W_1D : ℚ → ℚ
  W_2D : ℚ → ℚ
  W_3D : ℚ → ℚ
  dW_1D : ℚ → ℚ
  dW_2D : ℚ → ℚ
  dW_3D : ℚ → ℚ
  d2W_1D : ℚ → ℚ
  d2W_2D : ℚ → ℚ
  d2W_3D : ℚ → ℚ
  SmoothingLengthFactor1D : ℚ → ℚ
  SmoothingLengthFactor2D : ℚ → ℚ
  SmoothingLengthFactor3D : ℚ → ℚ

/-- Result of running a member function that may stop the process. -/
inductive Outcome where
  | returned (s : Kernel)
  | exited (status : ℕ) (s : Kernel)
deriving DecidableEq, Repr

namespace Kernel

/-- Constructor `Kernel::Kernel(std::string kernel_name)`: the initializer list
sets `kernel_name_`, `h_` and `inv_h_`; every other member keeps whatever the
storage held, here the corresponding field of `uninit`. -/
def Kernel (kernel_name : String) (uninit : SPH.Kernel) : SPH.Kernel :=
  { uninit with kernel_name_ := kernel_name, h_ := 1, inv_h_ := 1 }

/-- Member function `Kernel::setDerivativeParameters()`, statement by statement. -/
def setDerivativeParameters (K : KernelShape) (s : SPH.Kernel) : SPH.Kernel :=
  let s := { s with cutoff_radius_ref_ := K.KernelSize * s.h_ }
  let s := { s with factor_dW_1D_ := s.inv_h_ * s.factor_W_1D_ }
  let s := { s with factor_dW_2D_ := s.inv_h_ * s.factor_W_2D_ }
  let s := { s with factor_dW_3D_ := s.inv_h_ * s.factor_W_3D_ }
  let s := { s with factor_d2W_1D_ := s.inv_h_ * s.factor_dW_1D_ }
  let s := { s with factor_d2W_2D_ := s.inv_h_ * s.factor_dW_2D_ }
  let s := { s with factor_d2W_3D_ := s.inv_h_ * s.factor_dW_3D_ }
  s

/-- Member function `Kernel::initialize(Real h)`: both assignments come before
the test of `h`, and `exit(1)` leaves the object as those assignments made it. -/
def initialize_ (K : KernelShape) (h : ℚ) (s : SPH.Kernel) : Outcome :=
  let s := { s with h_ := h }
  let s := { s with inv_h_ := 1 / h }
  if h ≤ 0 then
    Outcome.exited 1 s
  else
    let s := K.setBasicParameters s
    let s := setDerivativeParameters K s
    Outcome.returned s

/-- Overload `W(const Real& r_ij, const Real& displacement)`. -/
def W_Real (K : KernelShape) (s : SPH.Kernel) (r_ij : ℚ) (displacement : ℚ) : ℚ :=
  let q := r_ij * s.inv_h_
  s.factor_W_1D_ * K.W_1D q

/-- Overload `W(const Real& r_ij, const Vec2d& displacement)`. -/
def W_Vec2d (K : KernelShape) (s : SPH.Kernel) (r_ij : ℚ) (displacement : Vec2d) : ℚ :=
  let q := r_ij * s.inv_h_
  s.factor_W_2D_ * K.W_2D q

/-- Overload `W(const Real& r_ij, const Vec3d& displacement)`. -/
def W_Vec3d (K : KernelShape) (s : SPH.Kernel) (r_ij : ℚ) (displacement : Vec3d) : ℚ :=
  let q := r_ij * s.inv_h_
  s.factor_W_3D_ * K.W_3D q

/-- Overload `dW(const Real& r_ij, const Real& displacement)`. -/
def dW_Real (K : KernelShape) (s : SPH.Kernel) (r_ij : ℚ) (displacement : ℚ) : ℚ :=
  let q := r_ij * s.inv_h_
  s.factor_dW_1D_ * K.dW_1D q

/-- Overload `dW(const Real& r_ij, const Vec2d& displacement)`. -/
def dW_Vec2d (K : KernelShape) (s : SPH.Kernel) (r_ij : ℚ) (displacement : Vec2d) : ℚ :=
  let q := r_ij * s.inv_h_
  s.factor_dW_2D_ * K.dW_2D q

/-- Overload `dW(const Real& r_ij, const Vec3d& displacement)`. -/
def dW_Vec3d (K : KernelShape) (s : SPH.Kernel) (r_ij : ℚ) (displacement : Vec3d) : ℚ :=
  let q := r_ij * s.inv_h_
  s.factor_dW_3D_ * K.dW_3D q

/-- Overload `d2W(const Real& r_ij, const Real& displacement)`. -/
def d2W_Real (K : KernelShape) (s : SPH.Kernel) (r_ij : ℚ) (displacement : ℚ) : ℚ :=
  let q := r_ij * s.inv_h_
  s.factor_d2W_1D_ * K.d2W_1D q

/-- Overload `d2W(const Real& r_ij, const Vec2d& displacement)`. -/
def d2W_Vec2d (K : KernelShape) (s : SPH.Kernel) (r_ij : ℚ) (displacement : Vec2d) : ℚ :=
  let q := r_ij * s.inv_h_
  s.factor_d2W_2D_ * K.d2W_2D q

/-- Overload `d2W(const Real& r_ij, const Vec3d& displacement)`. -/
def d2W_Vec3d (K : KernelShape) (s : SPH.Kernel) (r_ij : ℚ) (displacement : Vec3d) : ℚ :=
  let q := r_ij * s.inv_h_
  s.factor_d2W_3D_ * K.d2W_3D q

/-- Overload `W(const Real& h_ratio, const Real& r_ij, const Real& displacement)`. -/
def W_h_ratio_Real (K : KernelShape) (s : SPH.Kernel) (h_ratio r_ij : ℚ)
    (displacement : ℚ) : ℚ :=
  let q := r_ij * s.inv_h_ * h_ratio
  s.factor_W_1D_ * K.W_1D q * K.SmoothingLengthFactor1D h_ratio

/-- Overload `W(const Real& h_ratio, const Real& r_ij, const Vec2d& displacement)`. -/
def W_h_ratio_Vec2d (K : KernelShape) (s : SPH.Kernel) (h_ratio r_ij : ℚ)
    (displacement : Vec2d) : ℚ :=
  let q := r_ij * s.inv_h_ * h_ratio
  s.factor_W_2D_ * K.W_2D q * K.SmoothingLengthFactor2D h_ratio

/-- Overload `W(const Real& h_ratio, const Real& r_ij, const Vec3d& displacement)`. -/
def W_h_ratio_Vec3d (K : KernelShape) (s : SPH.Kernel) (h_ratio r_ij : ℚ)
    (displacement : Vec3d) : ℚ :=
  let q := r_ij * s.inv_h_ * h_ratio
  s.factor_W_3D_ * K.W_3D q * K.SmoothingLengthFactor3D h_ratio

/-- Overload `W0(const Real& h_ratio, const Real& point_i)`. -/
def W0_Real (K : KernelShape) (s : SPH.Kernel) (h_ratio : ℚ) (point_i : ℚ) : ℚ :=
  s.factor_W_1D_ * K.SmoothingLengthFactor1D h_ratio

/-- Overload `W0(const Real& h_ratio, const Vec2d& point_i)`. -/
def W0_Vec2d (K : KernelShape) (s : SPH.Kernel) (h_ratio : ℚ) (point_i : Vec2d) : ℚ :=
  s.factor_W_2D_ * K.SmoothingLengthFactor2D h_ratio

/-- Overload `W0(const Real& h_ratio, const Vec3d& point_i)`. -/
def W0_Vec3d (K : KernelShape) (s : SPH.Kernel) (h_ratio : ℚ) (point_i : Vec3d) : ℚ :=
  s.factor_W_3D_ * K.SmoothingLengthFactor3D h_ratio

/-- Overload `dW(const Real& h_ratio, const Real& r_ij, const Real& displacement)`. -/
def dW_h_ratio_Real (K : KernelShape) (s : SPH.Kernel) (h_ratio r_ij : ℚ)
    (displacement : ℚ) : ℚ :=
  let q := r_ij * s.inv_h_ * h_ratio
  s.factor_dW_1D_ * K.dW_1D q * K.SmoothingLengthFactor1D h_ratio

/-- Overload `dW(const Real& h_ratio, const Real& r_ij, const Vec2d& displacement)`. -/
def dW_h_ratio_Vec2d (K : KernelShape) (s : SPH.Kernel) (h_ratio r_ij : ℚ)
    (displacement : Vec2d) : ℚ :=
  let q := r_ij * s.inv_h_ * h_ratio
  s.factor_dW_2D_ * K.dW_2D q * K.SmoothingLengthFactor2D h_ratio

/-- Overload `dW(const Real& h_ratio, const Real& r_ij, const Vec3d& displacement)`. -/
def dW_h_ratio_Vec3d (K : KernelShape) (s : SPH.Kernel) (h_ratio r_ij : ℚ)
    (displacement : Vec3d) : ℚ :=
  let q := r_ij * s.inv_h_ * h_ratio
  s.factor_dW_3D_ * K.dW_3D q * K.SmoothingLengthFactor3D h_ratio

/-- Overload `d2W(const Real& h_ratio, const Real& r_ij, const Real& displacement)`. -/
def d2W_h_ratio_Real (K : KernelShape) (s : SPH.Kernel) (h_ratio r_ij : ℚ)
    (displacement : ℚ) : ℚ :=
  let q := r_ij * s.inv_h_ * h_ratio
  s.factor_d2W_1D_ * K.d2W_1D q * K.SmoothingLengthFactor1D h_ratio

/-- Overload `d2W(const Real& h_ratio, const Real& r_ij, const Vec2d& displacement)`. -/
def d2W_h_ratio_Vec2d (K : KernelShape) (s : SPH.Kernel) (h_ratio r_ij : ℚ)
    (displacement : Vec2d) : ℚ :=
  let q := r_ij * s.inv_h_ * h_ratio
  s.factor_d2W_2D_ * K.d2W_2D q * K.SmoothingLengthFactor2D h_ratio

/-- Overload `d2W(const Real& h_ratio, const Real& r_ij, const Vec3d& displacement)`. -/
def d2W_h_ratio_Vec3d (K : KernelShape) (s : SPH.Kernel) (h_ratio r_ij : ℚ)
    (displacement : Vec3d) : ℚ :=
  let q := r_ij * s.inv_h_ * h_ratio
  s.factor_d2W_3D_ * K.d2W_3D q * K.SmoothingLengthFactor3D h_ratio

/-- Member function `Kernel::reduceOnce()`: the three assignments in source
order, each reading the object as the previous one left it. -/
def reduceOnce (K : KernelShape) (s : SPH.Kernel) : SPH.Kernel :=
  let s := { s with factor_W_3D_ := s.factor_W_2D_ }
  let s := { s with factor_W_2D_ := s.factor_W_1D_ }
  let s := { s with factor_W_1D_ := 0 }
  setDerivativeParameters K s

/-- Member function `Kernel::reduceTwice()`. -/
def reduceTwice (K : KernelShape) (s : SPH.Kernel) : SPH.Kernel :=
  let s := { s with factor_W_3D_ := s.factor_W_1D_ }
  let s := { s with factor_W_2D_ := 0 }
  let s := { s with factor_W_1D_ := 0 }
  setDerivativeParameters K s

/-- One call of a mutating member function on a kernel object. -/
inductive Call where
  | initialize_ (h : ℚ)
  | reduceOnce
  | reduceTwice
deriving DecidableEq, Repr

/-- Runs one call on the object `s`. -/
def call (K : KernelShape) : Call → SPH.Kernel → Outcome
  | Call.initialize_ h, s => initialize_ K h s
  | Call.reduceOnce, s => Outcome.returned (reduceOnce K s)
  | Call.reduceTwice, s => Outcome.returned (reduceTwice K s)

/-- Runs a sequence of calls in order on the object `s`; a call that stops the
process ends the run, since no later call is made. -/
def calls (K : KernelShape) : List Call → SPH.Kernel → Outcome
  | [], s => Outcome.returned s
  | c :: cs, s =>
    match call K c s with
    | Outcome.returned t => calls K cs t
    | Outcome.exited n t => Outcome.exited n t

end Kernel

/-- The basic-factor routine writes only `factor_W_1D_`, `factor_W_2D_` and
`factor_W_3D_`: every other member is as it was before the call. -/
def WritesOnlyWFactors (f : Kernel → Kernel) : Prop :=
  ∀ s, f s = { s with
    factor_W_1D_ := (f s).factor_W_1D_,
    factor_W_2D_ := (f s).factor_W_2D_,
    factor_W_3D_ := (f s).factor_W_3D_ }

/-- Derivative-factor and cutoff invariants of the data model, read from one
state. -/
def DerivedInvariant (K : KernelShape) (s : Kernel) : Prop :=
  (s.factor_dW_1D_ = s.inv_h_ * s.factor_W_1D_ ∧
    s.factor_dW_2D_ = s.inv_h_ * s.factor_W_2D_ ∧
    s.factor_dW_3D_ = s.inv_h_ * s.factor_W_3D_) ∧
  (s.factor_d2W_1D_ = s.inv_h_ * s.factor_dW_1D_ ∧
    s.factor_d2W_2D_ = s.inv_h_ * s.factor_dW_2D_ ∧
    s.factor_d2W_3D_ = s.inv_h_ * s.factor_dW_3D_) ∧
  s.cutoff_radius_ref_ = K.KernelSize * s.h_

instance (K : KernelShape) (s : Kernel) : Decidable (DerivedInvariant K s) := by
  unfold DerivedInvariant
  infer_instance

/-- A rational kernel family used to evaluate the definitions on concrete
inputs: support size 2, basic factors in the manner of the library's kernels
(powers of `inv_h_` times a constant) for 1D and 2D and the constant 1 for 3D,
polynomial shape functions. -/
def sampleShape : KernelShape where
  setBasicParameters := fun s =>
    { s with
      factor_W_1D_ := s.inv_h_ * (3 / 4),
      factor_W_2D_ := s.inv_h_ * s.inv_h_ * (7 / 4),
      factor_W_3D_ := 1 }
  KernelSize := 2
  W_1D := fun q => (1 - q / 2) ^ 2
  W_2D := fun q => (1 - q / 2) ^ 3
  W_3D := fun q => (1 - q / 2) ^ 4
  dW_1D := fun q => -(1 - q / 2)
  dW_2D := fun q => -(3 / 2) * (1 - q / 2) ^ 2
  dW_3D := fun q => -2 * (1 - q / 2) ^ 3
  d2W_1D := fun _ => 1 / 2
  d2W_2D := fun q => (3 / 2) * (1 - q / 2)
  d2W_3D := fun q => 3 * (1 - q / 2) ^ 2
  SmoothingLengthFactor1D := fun ratio => ratio
  SmoothingLengthFactor2D := fun ratio => ratio ^ 2
  SmoothingLengthFactor3D := fun ratio => ratio ^ 3

/-- A kernel object with arbitrary member values, as storage may hold before
any setup. -/
def sampleKernel : Kernel where
  kernel_name_ := "Kernel"
  h_ := 5
  inv_h_ := 7
  factor_W_1D_ := 11
  factor_W_2D_ := 13
  factor_W_3D_ := 17
  factor_dW_1D_ := 19
  factor_dW_2D_ := 23
  factor_dW_3D_ := 29
  factor_d2W_1D_ := 31
  factor_d2W_2D_ := 37
  factor_d2W_3D_ := 41
  cutoff_radius_ref_ := 43

/-- One call of an evaluation overload, with its arguments. -/
inductive Kernel.EvalCall where
  | W_Real (r_ij : ℚ) (displacement : ℚ)
  | W_Vec2d (r_ij : ℚ) (displacement : Vec2d)
  | W_Vec3d (r_ij : ℚ) (displacement : Vec3d)
  | dW_Real (r_ij : ℚ) (displacement : ℚ)
  | dW_Vec2d (r_ij : ℚ) (displacement : Vec2d)
  | dW_Vec3d (r_ij : ℚ) (displacement : Vec3d)
  | d2W_Real (r_ij : ℚ) (displacement : ℚ)
  | d2W_Vec2d (r_ij : ℚ) (displacement : Vec2d)
  | d2W_Vec3d (r_ij : ℚ) (displacement : Vec3d)
  | W_h_ratio_Real (h_ratio r_ij : ℚ) (displacement : ℚ)
  | W_h_ratio_Vec2d (h_ratio r_ij : ℚ) (displacement : Vec2d)
  | W_h_ratio_Vec3d (h_ratio r_ij : ℚ) (displacement : Vec3d)
  | W0_Real (h_ratio : ℚ) (point_i : ℚ)
  | W0_Vec2d (h_ratio : ℚ) (point_i : Vec2d)
  | W0_Vec3d (h_ratio : ℚ) (point_i : Vec3d)
  | dW_h_ratio_Real (h_ratio r_ij : ℚ) (displacement : ℚ)
  | dW_h_ratio_Vec2d (h_ratio r_ij : ℚ) (displacement : Vec2d)
  | dW_h_ratio_Vec3d (h_ratio r_ij : ℚ) (displacement : Vec3d)
  | d2W_h_ratio_Real (h_ratio r_ij : ℚ) (displacement : ℚ)
  | d2W_h_ratio_Vec2d (h_ratio r_ij : ℚ) (displacement : Vec2d)
  | d2W_h_ratio_Vec3d (h_ratio r_ij : ℚ) (displacement : Vec3d)
deriving DecidableEq, Repr

/-- Runs one evaluation overload on the object `s` as a transition of the
object: the returned value together with the object after the call.  Every
evaluation overload of `base_kernel.cpp` is a `const` member function whose body
declares at most the local `q` and returns an expression; none contains an
assignment to a data member, so the object after the call is `s`. -/
def Kernel.evalCall (K : KernelShape) (s : SPH.Kernel) :
    Kernel.EvalCall → ℚ × SPH.Kernel
  | Kernel.EvalCall.W_Real r x => (Kernel.W_Real K s r x, s)
  | Kernel.EvalCall.W_Vec2d r x => (Kernel.W_Vec2d K s r x, s)
  | Kernel.EvalCall.W_Vec3d r x => (Kernel.W_Vec3d K s r x, s)
  | Kernel.EvalCall.dW_Real r x => (Kernel.dW_Real K s r x, s)
  | Kernel.EvalCall.dW_Vec2d r x => (Kernel.dW_Vec2d K s r x, s)
  | Kernel.EvalCall.dW_Vec3d r x => (Kernel.dW_Vec3d K s r x, s)
  | Kernel.EvalCall.d2W_Real r x => (Kernel.d2W_Real K s r x, s)
  | Kernel.EvalCall.d2W_Vec2d r x => (Kernel.d2W_Vec2d K s r x, s)
  | Kernel.EvalCall.d2W_Vec3d r x => (Kernel.d2W_Vec3d K s r x, s)
  | Kernel.EvalCall.W_h_ratio_Real a r x => (Kernel.W_h_ratio_Real K s a r x, s)
  | Kernel.EvalCall.W_h_ratio_Vec2d a r x => (Kernel.W_h_ratio_Vec2d K s a r x, s)
  | Kernel.EvalCall.W_h_ratio_Vec3d a r x => (Kernel.W_h_ratio_Vec3d K s a r x, s)
  | Kernel.EvalCall.W0_Real a x => (Kernel.W0_Real K s a x, s)
  | Kernel.EvalCall.W0_Vec2d a x => (Kernel.W0_Vec2d K s a x, s)
  | Kernel.EvalCall.W0_Vec3d a x => (Kernel.W0_Vec3d K s a x, s)
  | Kernel.EvalCall.dW_h_ratio_Real a r x => (Kernel.dW_h_ratio_Real K s a r x, s)
  | Kernel.EvalCall.dW_h_ratio_Vec2d a r x => (Kernel.dW_h_ratio_Vec2d K s a r x, s)
  | Kernel.EvalCall.dW_h_ratio_Vec3d a r x => (Kernel.dW_h_ratio_Vec3d K s a r x, s)
  | Kernel.EvalCall.d2W_h_ratio_Real a r x => (Kernel.d2W_h_ratio_Real K s a r x, s)
  | Kernel.EvalCall.d2W_h_ratio_Vec2d a r x => (Kernel.d2W_h_ratio_Vec2d K s a r x, s)
  | Kernel.EvalCall.d2W_h_ratio_Vec3d a r x => (Kernel.d2W_h_ratio_Vec3d K s a r x, s)

/-- All invariants of the data model, read from one state: `h > 0`,
`inv_h = 1 / h`, and the derivative-factor and cutoff invariants. -/
def StateInvariant (K : KernelShape) (s : Kernel) : Prop :=
  0 < s.h_ ∧ s.inv_h_ = 1 / s.h_ ∧ DerivedInvariant K s

instance (K : KernelShape) (s : Kernel) : Decidable (StateInvariant K s) := by
  unfold StateInvariant
  infer_instance

/-- The two states agree on every member other than the three 3D factors. -/
def AgreeOutside3D (a b : Kernel) : Prop :=
  a.kernel_name_ = b.kernel_name_ ∧ a.h_ = b.h_ ∧ a.inv_h_ = b.inv_h_ ∧
  a.factor_W_1D_ = b.factor_W_1D_ ∧ a.factor_W_2D_ = b.factor_W_2D_ ∧
  a.factor_dW_1D_ = b.factor_dW_1D_ ∧ a.factor_dW_2D_ = b.factor_dW_2D_ ∧
  a.factor_d2W_1D_ = b.factor_d2W_1D_ ∧ a.factor_d2W_2D_ = b.factor_d2W_2D_ ∧
  a.cutoff_radius_ref_ = b.cutoff_radius_ref_

/-- The two states agree on every member other than the three 2D factors. -/
def AgreeOutside2D (a b : Kernel) : Prop :=
  a.kernel_name_ = b.kernel_name_ ∧ a.h_ = b.h_ ∧ a.inv_h_ = b.inv_h_ ∧
  a.factor_W_1D_ = b.factor_W_1D_ ∧ a.factor_W_3D_ = b.factor_W_3D_ ∧
  a.factor_dW_1D_ = b.factor_dW_1D_ ∧ a.factor_dW_3D_ = b.factor_dW_3D_ ∧
  a.factor_d2W_1D_ = b.factor_d2W_1D_ ∧ a.factor_d2W_3D_ = b.factor_d2W_3D_ ∧
  a.cutoff_radius_ref_ = b.cutoff_radius_ref_

instance (a b : Kernel) : Decidable (AgreeOutside3D a b) := by
  unfold AgreeOutside3D
  infer_instance

instance (a b : Kernel) : Decidable (AgreeOutside2D a b) := by
  unfold AgreeOutside2D
  infer_instance

/-- A state with `h = 1`, `inv_h = 1`, the given three W factors, and the
derivative factors and the cutoff derived from them, so that it satisfies all
invariants of the data model for the kernel family `K`. -/
def unitState (K : KernelShape) (w1 w2 w3 : ℚ) : Kernel :=
  Kernel.setDerivativeParameters K
    { sampleKernel with
      h_ := 1,
      inv_h_ := 1,
      factor_W_1D_ := w1,
      factor_W_2D_ := w2,
      factor_W_3D_ := w3 }

/-- The sample kernel family with shape functions whose value at zero distance
is 2 instead of 1: the peak value is not folded into the W factors. -/
def peakTwoShape : KernelShape :=
  { sampleShape with
    W_1D := fun q => 2 * (1 - q / 2) ^ 2,
    W_2D := fun q => 2 * (1 - q / 2) ^ 3,
    W_3D := fun q => 2 * (1 - q / 2) ^ 4 }

/-! Auxiliary lemmas -/

theorem WritesOnlyWFactors.h_eq {f : Kernel → Kernel} (hf : WritesOnlyWFactors f)
    (s : Kernel) : (f s).h_ = s.h_ := by
  have e := congrArg Kernel.h_ (hf s)
  simpa using e

theorem WritesOnlyWFactors.inv_h_eq {f : Kernel → Kernel} (hf : WritesOnlyWFactors f)
    (s : Kernel) : (f s).inv_h_ = s.inv_h_ := by
  have e := congrArg Kernel.inv_h_ (hf s)
  simpa using e

theorem WritesOnlyWFactors.kernel_name_eq {f : Kernel → Kernel}
    (hf : WritesOnlyWFactors f) (s : Kernel) : (f s).kernel_name_ = s.kernel_name_ := by
  have e := congrArg Kernel.kernel_name_ (hf s)
  simpa using e

theorem sampleShape_writesOnlyWFactors :
    WritesOnlyWFactors sampleShape.setBasicParameters := by
  intro s
  rfl

theorem setDerivativeParameters_derivedInvariant (K : KernelShape) (s : Kernel) :
    DerivedInvariant K (Kernel.setDerivativeParameters K s) := by
  simp [DerivedInvariant, Kernel.setDerivativeParameters]

theorem initialize_of_pos (K : KernelShape) (h : ℚ) (s : Kernel) (hpos : 0 < h) :
    Kernel.initialize_ K h s = Outcome.returned
      (Kernel.setDerivativeParameters K
        (K.setBasicParameters { s with h_ := h, inv_h_ := 1 / h })) := by
  simp [Kernel.initialize_, not_le.mpr hpos]

theorem initialize_of_nonpos (K : KernelShape) (h : ℚ) (s : Kernel) (hle : h ≤ 0) :
    Kernel.initialize_ K h s = Outcome.exited 1 { s with h_ := h, inv_h_ := 1 / h } := by
  simp [Kernel.initialize_, hle]

theorem unitState_stateInvariant (K : KernelShape) (w1 w2 w3 : ℚ) :
    StateInvariant K (unitState K w1 w2 w3) := by
  simp [StateInvariant, DerivedInvariant, unitState, Kernel.setDerivativeParameters]

theorem unitState_factor_W_2D (K : KernelShape) (w1 w2 w3 : ℚ) :
    (unitState K w1 w2 w3).factor_W_2D_ = w2 := rfl

theorem unitState_factor_W_3D (K : KernelShape) (w1 w2 w3 : ℚ) :
    (unitState K w1 w2 w3).factor_W_3D_ = w3 := rfl

/-! Evaluation overloads -/

/-- C1: each of the nine base overloads of `W`, `dW`, `d2W` returns the factor
of its own dimension times the shape function of that dimension at
`r * inv_h`. -/
theorem base_overloads_exact (K : KernelShape) (s : Kernel) (r : ℚ)
    (x1 : ℚ) (x2 : Vec2d) (x3 : Vec3d) :
    (Kernel.W_Real K s r x1 = s.factor_W_1D_ * K.W_1D (r * s.inv_h_) ∧
      Kernel.W_Vec2d K s r x2 = s.factor_W_2D_ * K.W_2D (r * s.inv_h_) ∧
      Kernel.W_Vec3d K s r x3 = s.factor_W_3D_ * K.W_3D (r * s.inv_h_)) ∧
    (Kernel.dW_Real K s r x1 = s.factor_dW_1D_ * K.dW_1D (r * s.inv_h_) ∧
      Kernel.dW_Vec2d K s r x2 = s.factor_dW_2D_ * K.dW_2D (r * s.inv_h_) ∧
      Kernel.dW_Vec3d K s r x3 = s.factor_dW_3D_ * K.dW_3D (r * s.inv_h_)) ∧
    (Kernel.d2W_Real K s r x1 = s.factor_d2W_1D_ * K.d2W_1D (r * s.inv_h_) ∧
      Kernel.d2W_Vec2d K s r x2 = s.factor_d2W_2D_ * K.d2W_2D (r * s.inv_h_) ∧
      Kernel.d2W_Vec3d K s r x3 = s.factor_d2W_3D_ * K.d2W_3D (r * s.inv_h_)) :=
  ⟨⟨rfl, rfl, rfl⟩, ⟨rfl, rfl, rfl⟩, ⟨rfl, rfl, rfl⟩⟩

/-- C2: each of the nine variable-smoothing-length overloads returns, with
`q = r * inv_h * ratio`, the factor of its own dimension times the shape
function of that dimension at `q` times the length correction of that
dimension at `ratio`. -/
theorem h_ratio_overloads_exact (K : KernelShape) (s : Kernel) (ratio r : ℚ)
    (x1 : ℚ) (x2 : Vec2d) (x3 : Vec3d) :
    (Kernel.W_h_ratio_Real K s ratio r x1
        = s.factor_W_1D_ * K.W_1D (r * s.inv_h_ * ratio) * K.SmoothingLengthFactor1D ratio ∧
      Kernel.W_h_ratio_Vec2d K s ratio r x2
        = s.factor_W_2D_ * K.W_2D (r * s.inv_h_ * ratio) * K.SmoothingLengthFactor2D ratio ∧
      Kernel.W_h_ratio_Vec3d K s ratio r x3
        = s.factor_W_3D_ * K.W_3D (r * s.inv_h_ * ratio) * K.SmoothingLengthFactor3D ratio) ∧
    (Kernel.dW_h_ratio_Real K s ratio r x1
        = s.factor_dW_1D_ * K.dW_1D (r * s.inv_h_ * ratio) * K.SmoothingLengthFactor1D ratio ∧
      Kernel.dW_h_ratio_Vec2d K s ratio r x2
        = s.factor_dW_2D_ * K.dW_2D (r * s.inv_h_ * ratio) * K.SmoothingLengthFactor2D ratio ∧
      Kernel.dW_h_ratio_Vec3d K s ratio r x3
        = s.factor_dW_3D_ * K.dW_3D (r * s.inv_h_ * ratio) * K.SmoothingLengthFactor3D ratio) ∧
    (Kernel.d2W_h_ratio_Real K s ratio r x1
        = s.factor_d2W_1D_ * K.d2W_1D (r * s.inv_h_ * ratio) * K.SmoothingLengthFactor1D ratio ∧
      Kernel.d2W_h_ratio_Vec2d K s ratio r x2
        = s.factor_d2W_2D_ * K.d2W_2D (r * s.inv_h_ * ratio) * K.SmoothingLengthFactor2D ratio ∧
      Kernel.d2W_h_ratio_Vec3d K s ratio r x3
        = s.factor_d2W_3D_ * K.d2W_3D (r * s.inv_h_ * ratio) * K.SmoothingLengthFactor3D ratio) :=
  ⟨⟨rfl, rfl, rfl⟩, ⟨rfl, rfl, rfl⟩, ⟨rfl, rfl, rfl⟩⟩

/-! Setup -/

/-- C3: for `h > 0`, and a basic-factor routine that writes only the three W
factors, `initialize(h)` returns, and the resulting state is
`setDerivativeParameters` applied to the routine's result on the prior state
carrying the new `h` and `1 / h`: name unchanged, `h` as given, `inv_h = 1 / h`,
the W factors as the routine wrote them, the six derivative factors and the
cutoff derived from those. -/
theorem initialize_success_state (K : KernelShape) (h : ℚ) (s : Kernel) (hpos : 0 < h)
    (hK : WritesOnlyWFactors K.setBasicParameters) :
    ∃ t, Kernel.initialize_ K h s = Outcome.returned t ∧
      t = Kernel.setDerivativeParameters K
            (K.setBasicParameters { s with h_ := h, inv_h_ := 1 / h }) ∧
      t.kernel_name_ = s.kernel_name_ ∧ t.h_ = h ∧ t.inv_h_ = 1 / h ∧
      (t.factor_W_1D_
          = (K.setBasicParameters { s with h_ := h, inv_h_ := 1 / h }).factor_W_1D_ ∧
        t.factor_W_2D_
          = (K.setBasicParameters { s with h_ := h, inv_h_ := 1 / h }).factor_W_2D_ ∧
        t.factor_W_3D_
          = (K.setBasicParameters { s with h_ := h, inv_h_ := 1 / h }).factor_W_3D_) ∧
      (t.factor_dW_1D_ = 1 / h * t.factor_W_1D_ ∧
        t.factor_dW_2D_ = 1 / h * t.factor_W_2D_ ∧
        t.factor_dW_3D_ = 1 / h * t.factor_W_3D_) ∧
      (t.factor_d2W_1D_ = 1 / h * (1 / h * t.factor_W_1D_) ∧
        t.factor_d2W_2D_ = 1 / h * (1 / h * t.factor_W_2D_) ∧
        t.factor_d2W_3D_ = 1 / h * (1 / h * t.factor_W_3D_)) ∧
      t.cutoff_radius_ref_ = K.KernelSize * h := by
  refine ⟨_, initialize_of_pos K h s hpos, rfl, ?_⟩
  have e1 := hK.h_eq { s with h_ := h, inv_h_ := 1 / h }
  have e2 := hK.inv_h_eq { s with h_ := h, inv_h_ := 1 / h }
  have e3 := hK.kernel_name_eq { s with h_ := h, inv_h_ := 1 / h }
  simp only [Kernel.setDerivativeParameters, e1, e2, e3]
  simp

/-- Evaluation of C3 on the sample kernel family at `h = 2`. -/
theorem initialize_success_state_witness :
    ∃ t, Kernel.initialize_ sampleShape 2 sampleKernel = Outcome.returned t ∧
      t = Kernel.setDerivativeParameters sampleShape
            (sampleShape.setBasicParameters { sampleKernel with h_ := 2, inv_h_ := 1 / 2 }) ∧
      t.kernel_name_ = sampleKernel.kernel_name_ ∧ t.h_ = 2 ∧ t.inv_h_ = 1 / 2 ∧
      (t.factor_W_1D_
          = (sampleShape.setBasicParameters
              { sampleKernel with h_ := 2, inv_h_ := 1 / 2 }).factor_W_1D_ ∧
        t.factor_W_2D_
          = (sampleShape.setBasicParameters
              { sampleKernel with h_ := 2, inv_h_ := 1 / 2 }).factor_W_2D_ ∧
        t.factor_W_3D_
          = (sampleShape.setBasicParameters
              { sampleKernel with h_ := 2, inv_h_ := 1 / 2 }).factor_W_3D_) ∧
      (t.factor_dW_1D_ = 1 / 2 * t.factor_W_1D_ ∧
        t.factor_dW_2D_ = 1 / 2 * t.factor_W_2D_ ∧
        t.factor_dW_3D_ = 1 / 2 * t.factor_W_3D_) ∧
      (t.factor_d2W_1D_ = 1 / 2 * (1 / 2 * t.factor_W_1D_) ∧
        t.factor_d2W_2D_ = 1 / 2 * (1 / 2 * t.factor_W_2D_) ∧
        t.factor_d2W_3D_ = 1 / 2 * (1 / 2 * t.factor_W_3D_)) ∧
      t.cutoff_radius_ref_ = sampleShape.KernelSize * 2 :=
  initialize_success_state sampleShape 2 sampleKernel (by norm_num)
    sampleShape_writesOnlyWFactors

/-- C4: the derivative-factor and cutoff invariants hold in the post-state of
every mutating operation, whatever the prior state and whatever the
basic-factor routine does: after `initialize(h)` whenever it returns (and it
returns for every `h > 0`), after `reduceOnce()` and after `reduceTwice()`. -/
theorem derived_invariant_after_mutation (K : KernelShape) (s : Kernel) :
    (∀ h t, Kernel.initialize_ K h s = Outcome.returned t → DerivedInvariant K t) ∧
    (∀ h, 0 < h →
      ∃ t, Kernel.initialize_ K h s = Outcome.returned t ∧ DerivedInvariant K t) ∧
    DerivedInvariant K (Kernel.reduceOnce K s) ∧
    DerivedInvariant K (Kernel.reduceTwice K s) := by
  refine ⟨?_, ?_, ?_, ?_⟩
  · intro h t ht
    rcases le_or_lt h 0 with hle | hpos
    · rw [initialize_of_nonpos K h s hle] at ht
      cases ht
    · rw [initialize_of_pos K h s hpos] at ht
      cases ht
      exact setDerivativeParameters_derivedInvariant K _
  · intro h hpos
    exact ⟨_, initialize_of_pos K h s hpos, setDerivativeParameters_derivedInvariant K _⟩
  · exact setDerivativeParameters_derivedInvariant K _
  · exact setDerivativeParameters_derivedInvariant K _

/-- Evaluation of C4 on the sample kernel family: `initialize(2)` returns and
its post-state satisfies the invariants. -/
theorem derived_invariant_after_mutation_witness :
    ∃ t, Kernel.initialize_ sampleShape 2 sampleKernel = Outcome.returned t ∧
      DerivedInvariant sampleShape t :=
  (derived_invariant_after_mutation sampleShape sampleKernel).2.1 2 (by norm_num)

/-! Dimensional reduction -/

/-- C5: `reduceOnce()` moves the pre-call 2D factor to 3D and the pre-call 1D
factor to 2D, sets the 1D factor to 0, leaves `h` and `inv_h` as they were, and
recomputes the derivative factors and the cutoff from the new factors. -/
theorem reduceOnce_shift (K : KernelShape) (s : Kernel) :
    ((Kernel.reduceOnce K s).factor_W_3D_ = s.factor_W_2D_ ∧
      (Kernel.reduceOnce K s).factor_W_2D_ = s.factor_W_1D_ ∧
      (Kernel.reduceOnce K s).factor_W_1D_ = 0) ∧
    ((Kernel.reduceOnce K s).h_ = s.h_ ∧ (Kernel.reduceOnce K s).inv_h_ = s.inv_h_) ∧
    ((Kernel.reduceOnce K s).factor_dW_1D_ = s.inv_h_ * 0 ∧
      (Kernel.reduceOnce K s).factor_dW_2D_ = s.inv_h_ * s.factor_W_1D_ ∧
      (Kernel.reduceOnce K s).factor_dW_3D_ = s.inv_h_ * s.factor_W_2D_) ∧
    ((Kernel.reduceOnce K s).factor_d2W_1D_ = s.inv_h_ * s.inv_h_ * 0 ∧
      (Kernel.reduceOnce K s).factor_d2W_2D_ = s.inv_h_ * s.inv_h_ * s.factor_W_1D_ ∧
      (Kernel.reduceOnce K s).factor_d2W_3D_ = s.inv_h_ * s.inv_h_ * s.factor_W_2D_) ∧
    (Kernel.reduceOnce K s).cutoff_radius_ref_ = K.KernelSize * s.h_ := by
  simp [Kernel.reduceOnce, Kernel.setDerivativeParameters, mul_assoc]

/-- C6: `reduceTwice()` moves the pre-call 1D factor to 3D, sets the 2D and 1D
factors to 0, leaves `h` and `inv_h` as they were, and recomputes the derivative
factors from the new factors, so that the 1D and 2D derivative factors are 0. -/
theorem reduceTwice_collapse (K : KernelShape) (s : Kernel) :
    ((Kernel.reduceTwice K s).factor_W_3D_ = s.factor_W_1D_ ∧
      (Kernel.reduceTwice K s).factor_W_2D_ = 0 ∧
      (Kernel.reduceTwice K s).factor_W_1D_ = 0) ∧
    ((Kernel.reduceTwice K s).h_ = s.h_ ∧ (Kernel.reduceTwice K s).inv_h_ = s.inv_h_) ∧
    ((Kernel.reduceTwice K s).factor_dW_3D_ = s.inv_h_ * s.factor_W_1D_ ∧
      (Kernel.reduceTwice K s).factor_d2W_3D_ = s.inv_h_ * s.inv_h_ * s.factor_W_1D_) ∧
    ((Kernel.reduceTwice K s).factor_dW_1D_ = 0 ∧
      (Kernel.reduceTwice K s).factor_dW_2D_ = 0 ∧
      (Kernel.reduceTwice K s).factor_d2W_1D_ = 0 ∧
      (Kernel.reduceTwice K s).factor_d2W_2D_ = 0) := by
  simp [Kernel.reduceTwice, Kernel.setDerivativeParameters, mul_assoc]

/-! Failure of setup, self-contribution, reachable states -/

/-- C7: `initialize(h)` stops the process exactly when `h ≤ 0`; for `h ≤ 0` the
outcome is the same for every kernel family (neither the basic-factor routine
nor the derivative-factor derivation has run) and the nine factors and the
cutoff are the prior ones; for `h > 0` it returns. -/
theorem initialize_fails_iff_nonpos (K : KernelShape) (h : ℚ) (s : Kernel) :
    ((∃ n t, Kernel.initialize_ K h s = Outcome.exited n t) ↔ h ≤ 0) ∧
    (h ≤ 0 →
      ∃ t, Kernel.initialize_ K h s = Outcome.exited 1 t ∧
        (∀ K2 : KernelShape, Kernel.initialize_ K2 h s = Outcome.exited 1 t) ∧
        (t.factor_W_1D_ = s.factor_W_1D_ ∧ t.factor_W_2D_ = s.factor_W_2D_ ∧
          t.factor_W_3D_ = s.factor_W_3D_) ∧
        (t.factor_dW_1D_ = s.factor_dW_1D_ ∧ t.factor_dW_2D_ = s.factor_dW_2D_ ∧
          t.factor_dW_3D_ = s.factor_dW_3D_) ∧
        (t.factor_d2W_1D_ = s.factor_d2W_1D_ ∧ t.factor_d2W_2D_ = s.factor_d2W_2D_ ∧
          t.factor_d2W_3D_ = s.factor_d2W_3D_) ∧
        t.cutoff_radius_ref_ = s.cutoff_radius_ref_) ∧
    (0 < h → ∃ t, Kernel.initialize_ K h s = Outcome.returned t) := by
  refine ⟨⟨?_, ?_⟩, ?_, ?_⟩
  · rintro ⟨n, t, ht⟩
    by_contra hn
    rw [initialize_of_pos K h s (not_le.mp hn)] at ht
    cases ht
  · intro hle
    exact ⟨1, _, initialize_of_nonpos K h s hle⟩
  · intro hle
    exact ⟨_, initialize_of_nonpos K h s hle,
      fun K2 => initialize_of_nonpos K2 h s hle,
      ⟨rfl, rfl, rfl⟩, ⟨rfl, rfl, rfl⟩, ⟨rfl, rfl, rfl⟩, rfl⟩
  · intro hpos
    exact ⟨_, initialize_of_pos K h s hpos⟩

/-- Evaluation of C7 on the sample kernel family at `h = -3`: the process stops
with status 1 and the nine factors and the cutoff are those of the prior
state. -/
theorem initialize_fails_iff_nonpos_witness :
    ∃ t, Kernel.initialize_ sampleShape (-3) sampleKernel = Outcome.exited 1 t ∧
      (∀ K2 : KernelShape, Kernel.initialize_ K2 (-3) sampleKernel = Outcome.exited 1 t) ∧
      (t.factor_W_1D_ = sampleKernel.factor_W_1D_ ∧
        t.factor_W_2D_ = sampleKernel.factor_W_2D_ ∧
        t.factor_W_3D_ = sampleKernel.factor_W_3D_) ∧
      (t.factor_dW_1D_ = sampleKernel.factor_dW_1D_ ∧
        t.factor_dW_2D_ = sampleKernel.factor_dW_2D_ ∧
        t.factor_dW_3D_ = sampleKernel.factor_dW_3D_) ∧
      (t.factor_d2W_1D_ = sampleKernel.factor_d2W_1D_ ∧
        t.factor_d2W_2D_ = sampleKernel.factor_d2W_2D_ ∧
        t.factor_d2W_3D_ = sampleKernel.factor_d2W_3D_) ∧
      t.cutoff_radius_ref_ = sampleKernel.cutoff_radius_ref_ :=
  (initialize_fails_iff_nonpos sampleShape (-3) sampleKernel).2.1 (by norm_num)

/-- C8: each `W0` overload returns the W factor of its own dimension times the
length correction of that dimension at `ratio`; its value is the same for any
other kernel family with the same length correction and any other state with
the same W factor of that dimension, so it depends neither on the shape
functions nor on `inv_h` nor on a derivative factor. -/
theorem W0_formula (K : KernelShape) (s : Kernel) (ratio : ℚ)
    (p1 : ℚ) (p2 : Vec2d) (p3 : Vec3d) :
    (Kernel.W0_Real K s ratio p1 = s.factor_W_1D_ * K.SmoothingLengthFactor1D ratio ∧
      Kernel.W0_Vec2d K s ratio p2 = s.factor_W_2D_ * K.SmoothingLengthFactor2D ratio ∧
      Kernel.W0_Vec3d K s ratio p3 = s.factor_W_3D_ * K.SmoothingLengthFactor3D ratio) ∧
    (∀ (K2 : KernelShape) (s2 : Kernel),
      (K2.SmoothingLengthFactor1D = K.SmoothingLengthFactor1D →
        s2.factor_W_1D_ = s.factor_W_1D_ →
        Kernel.W0_Real K2 s2 ratio p1 = Kernel.W0_Real K s ratio p1) ∧
      (K2.SmoothingLengthFactor2D = K.SmoothingLengthFactor2D →
        s2.factor_W_2D_ = s.factor_W_2D_ →
        Kernel.W0_Vec2d K2 s2 ratio p2 = Kernel.W0_Vec2d K s ratio p2) ∧
      (K2.SmoothingLengthFactor3D = K.SmoothingLengthFactor3D →
        s2.factor_W_3D_ = s.factor_W_3D_ →
        Kernel.W0_Vec3d K2 s2 ratio p3 = Kernel.W0_Vec3d K s ratio p3)) := by
  refine ⟨⟨rfl, rfl, rfl⟩, fun K2 s2 => ⟨?_, ?_, ?_⟩⟩
  · intro hL hs
    simp only [Kernel.W0_Real, hL, hs]
  · intro hL hs
    simp only [Kernel.W0_Vec2d, hL, hs]
  · intro hL hs
    simp only [Kernel.W0_Vec3d, hL, hs]

/-- C9: with a basic-factor routine that writes only the three W factors, every
state reached from the constructor by a sequence of `initialize`, `reduceOnce`
and `reduceTwice` calls that all return has `h > 0`, `inv_h = 1 / h` and
`h * inv_h = 1`; the constructor sets `h = 1` and `inv_h = 1`, a returning
`initialize` establishes the property from any state, and both reductions leave
`h` and `inv_h` as they were. -/
theorem h_inv_h_reachable (K : KernelShape) (hK : WritesOnlyWFactors K.setBasicParameters)
    (kernel_name : String) (uninit : Kernel) (cs : List Kernel.Call) (s : Kernel)
    (hrun : Kernel.calls K cs (Kernel.Kernel kernel_name uninit) = Outcome.returned s) :
    (0 < s.h_ ∧ s.inv_h_ = 1 / s.h_ ∧ s.h_ * s.inv_h_ = 1) ∧
    ((Kernel.Kernel kernel_name uninit).h_ = 1 ∧
      (Kernel.Kernel kernel_name uninit).inv_h_ = 1) ∧
    (∀ (h : ℚ) (a b : Kernel), Kernel.initialize_ K h a = Outcome.returned b →
      0 < b.h_ ∧ b.inv_h_ = 1 / b.h_) ∧
    (∀ a : Kernel,
      ((Kernel.reduceOnce K a).h_ = a.h_ ∧ (Kernel.reduceOnce K a).inv_h_ = a.inv_h_) ∧
      ((Kernel.reduceTwice K a).h_ = a.h_ ∧ (Kernel.reduceTwice K a).inv_h_ = a.inv_h_)) := by
  have hinit : ∀ (h : ℚ) (a b : Kernel), Kernel.initialize_ K h a = Outcome.returned b →
      0 < b.h_ ∧ b.inv_h_ = 1 / b.h_ := by
    intro h a b hab
    rcases le_or_lt h 0 with hle | hpos
    · rw [initialize_of_nonpos K h a hle] at hab
      cases hab
    · rw [initialize_of_pos K h a hpos] at hab
      cases hab
      have e1 := hK.h_eq { a with h_ := h, inv_h_ := 1 / h }
      have e2 := hK.inv_h_eq { a with h_ := h, inv_h_ := 1 / h }
      simp only [Kernel.setDerivativeParameters, e1, e2]
      exact ⟨hpos, trivial⟩
  have hred : ∀ a : Kernel,
      ((Kernel.reduceOnce K a).h_ = a.h_ ∧ (Kernel.reduceOnce K a).inv_h_ = a.inv_h_) ∧
      ((Kernel.reduceTwice K a).h_ = a.h_ ∧ (Kernel.reduceTwice K a).inv_h_ = a.inv_h_) := by
    intro a
    simp [Kernel.reduceOnce, Kernel.reduceTwice, Kernel.setDerivativeParameters]
  have hstep : ∀ (cs : List Kernel.Call) (a b : Kernel),
      (0 < a.h_ ∧ a.inv_h_ = 1 / a.h_) → Kernel.calls K cs a = Outcome.returned b →
      0 < b.h_ ∧ b.inv_h_ = 1 / b.h_ := by
    intro cs
    induction cs with
    | nil =>
      intro a b ha hab
      simp only [Kernel.calls, Outcome.returned.injEq] at hab
      exact hab ▸ ha
    | cons c cs ih =>
      intro a b ha hab
      cases c with
      | initialize_ h =>
        simp only [Kernel.calls, Kernel.call] at hab
        cases hi : Kernel.initialize_ K h a with
        | returned m =>
          rw [hi] at hab
          exact ih m b (hinit h a m hi) hab
        | exited n m =>
          rw [hi] at hab
          cases hab
      | reduceOnce =>
        simp only [Kernel.calls, Kernel.call] at hab
        refine ih _ b ?_ hab
        rw [(hred a).1.1, (hred a).1.2]
        exact ha
      | reduceTwice =>
        simp only [Kernel.calls, Kernel.call] at hab
        refine ih _ b ?_ hab
        rw [(hred a).2.1, (hred a).2.2]
        exact ha
  have hctor : (Kernel.Kernel kernel_name uninit).h_ = 1 ∧
      (Kernel.Kernel kernel_name uninit).inv_h_ = 1 := ⟨rfl, rfl⟩
  have hs := hstep cs _ s (by rw [hctor.1, hctor.2]; norm_num) hrun
  refine ⟨⟨hs.1, hs.2, ?_⟩, hctor, hinit, hred⟩
  rw [hs.2]
  field_simp [ne_of_gt hs.1]

/-- Evaluation of C9 on the sample kernel family: construction, then
`initialize(2)`, `reduceOnce()`, `initialize(3)`, `reduceTwice()`. -/
theorem h_inv_h_reachable_witness :
    (0 < (Kernel.reduceTwice sampleShape (Kernel.setDerivativeParameters sampleShape
        (sampleShape.setBasicParameters
          { sampleKernel with h_ := 3, inv_h_ := 1 / 3 }))).h_ ∧
      (Kernel.reduceTwice sampleShape (Kernel.setDerivativeParameters sampleShape
        (sampleShape.setBasicParameters
          { sampleKernel with h_ := 3, inv_h_ := 1 / 3 }))).inv_h_
        = 1 / (Kernel.reduceTwice sampleShape (Kernel.setDerivativeParameters sampleShape
            (sampleShape.setBasicParameters
              { sampleKernel with h_ := 3, inv_h_ := 1 / 3 }))).h_ ∧
      (Kernel.reduceTwice sampleShape (Kernel.setDerivativeParameters sampleShape
        (sampleShape.setBasicParameters
          { sampleKernel with h_ := 3, inv_h_ := 1 / 3 }))).h_
        * (Kernel.reduceTwice sampleShape (Kernel.setDerivativeParameters sampleShape
            (sampleShape.setBasicParameters
              { sampleKernel with h_ := 3, inv_h_ := 1 / 3 }))).inv_h_ = 1) ∧
    Kernel.calls sampleShape
        [Kernel.Call.initialize_ 2, Kernel.Call.reduceOnce, Kernel.Call.initialize_ 3,
          Kernel.Call.reduceTwice]
        (Kernel.Kernel "Kernel" sampleKernel)
      = Outcome.returned
          (Kernel.reduceTwice sampleShape (Kernel.setDerivativeParameters sampleShape
            (sampleShape.setBasicParameters
              { sampleKernel with h_ := 3, inv_h_ := 1 / 3 }))) :=
  have hrun : Kernel.calls sampleShape
        [Kernel.Call.initialize_ 2, Kernel.Call.reduceOnce, Kernel.Call.initialize_ 3,
          Kernel.Call.reduceTwice]
        (Kernel.Kernel "Kernel" sampleKernel)
      = Outcome.returned
          (Kernel.reduceTwice sampleShape (Kernel.setDerivativeParameters sampleShape
            (sampleShape.setBasicParameters
              { sampleKernel with h_ := 3, inv_h_ := 1 / 3 }))) := by
    norm_num [Kernel.calls, Kernel.call, Kernel.initialize_, Kernel.reduceOnce,
      Kernel.reduceTwice, Kernel.setDerivativeParameters, Kernel.Kernel, sampleShape,
      sampleKernel]
  ⟨(h_inv_h_reachable sampleShape sampleShape_writesOnlyWFactors "Kernel" sampleKernel
      [Kernel.Call.initialize_ 2, Kernel.Call.reduceOnce, Kernel.Call.initialize_ 3,
        Kernel.Call.reduceTwice] _ hrun).1, hrun⟩

/-! Concrete scenario -/

/-- C10: for a kernel family with `KernelSize() = 2` whose basic-factor routine
writes only the three W factors and sets the 3D factor to 1, `initialize(2)`
returns a state with `h = 2`, `inv_h = 1 / 2`, 3D factors `1`, `1 / 2`, `1 / 4`
and cutoff `4`, in which `W(2, 3D displacement) = 1 * W_3D(1)`. -/
theorem scenario_h_two (K : KernelShape) (s : Kernel) (hsize : K.KernelSize = 2)
    (hW3 : ∀ a, (K.setBasicParameters a).factor_W_3D_ = 1)
    (hK : WritesOnlyWFactors K.setBasicParameters) :
    ∃ t, Kernel.initialize_ K 2 s = Outcome.returned t ∧
      t.h_ = 2 ∧ t.inv_h_ = 1 / 2 ∧ t.factor_W_3D_ = 1 ∧
      t.factor_dW_3D_ = 1 / 2 ∧ t.factor_d2W_3D_ = 1 / 4 ∧
      t.cutoff_radius_ref_ = 4 ∧
      ∀ x3 : Vec3d, Kernel.W_Vec3d K t 2 x3 = 1 * K.W_3D 1 := by
  refine ⟨_, initialize_of_pos K 2 s (by norm_num), ?_⟩
  have e1 := hK.h_eq { s with h_ := 2, inv_h_ := 1 / 2 }
  have e2 := hK.inv_h_eq { s with h_ := 2, inv_h_ := 1 / 2 }
  have e3 := hW3 { s with h_ := 2, inv_h_ := 1 / 2 }
  simp only [Kernel.W_Vec3d, Kernel.setDerivativeParameters, e1, e2, e3, hsize]
  norm_num

/-- Evaluation of C10 on the sample kernel family, whose `W_3D(1)` is `1 / 16`. -/
theorem scenario_h_two_witness :
    ∃ t, Kernel.initialize_ sampleShape 2 sampleKernel = Outcome.returned t ∧
      t.h_ = 2 ∧ t.inv_h_ = 1 / 2 ∧ t.factor_W_3D_ = 1 ∧
      t.factor_dW_3D_ = 1 / 2 ∧ t.factor_d2W_3D_ = 1 / 4 ∧
      t.cutoff_radius_ref_ = 4 ∧
      ∀ x3 : Vec3d, Kernel.W_Vec3d sampleShape t 2 x3 = 1 * sampleShape.W_3D 1 :=
  scenario_h_two sampleShape sampleKernel rfl (fun _ => rfl) sampleShape_writesOnlyWFactors

/-! Frame of the evaluation overloads -/

/-- C11: an evaluation call, whichever of the twenty-one overloads it is,
returns the object it was called on with every member unchanged, and two calls
with equal objects and equal arguments return equal values. -/
theorem evaluation_does_not_mutate (K : KernelShape) (s : Kernel) (e : Kernel.EvalCall) :
    (Kernel.evalCall K s e).2 = s ∧
    ∀ (s2 : Kernel) (e2 : Kernel.EvalCall), s2 = s → e2 = e →
      (Kernel.evalCall K s2 e2).1 = (Kernel.evalCall K s e).1 := by
  refine ⟨?_, ?_⟩
  · cases e <;> rfl
  · intro s2 e2 hs he
    rw [hs, he]

/-- Evaluation of C11 on the sample kernel family: the call `W(1, Vec2d)` leaves
the sample object as it was. -/
theorem evaluation_does_not_mutate_witness :
    (Kernel.evalCall sampleShape sampleKernel
        (Kernel.EvalCall.W_Vec2d 1 { x := 0, y := 0 })).2 = sampleKernel :=
  (evaluation_does_not_mutate sampleShape sampleKernel
    (Kernel.EvalCall.W_Vec2d 1 { x := 0, y := 0 })).1

/-! Order of assignment and validation in setup -/

/-- C12, as the claim states it, fails: `initialize(-3)` on the sample object
stops the process with `h_ = -3` and `inv_h_ = -1/3` already stored, while the
prior values were `5` and `7`; `initialize(0)` stops it with `h_ = 0` stored. -/
theorem initialize_validates_after_writing :
    (∃ t, Kernel.initialize_ sampleShape (-3) sampleKernel = Outcome.exited 1 t ∧
      t.h_ = -3 ∧ t.inv_h_ = -1 / 3 ∧ sampleKernel.h_ = 5 ∧ sampleKernel.inv_h_ = 7 ∧
      t ≠ sampleKernel) ∧
    (∃ t, Kernel.initialize_ sampleShape 0 sampleKernel = Outcome.exited 1 t ∧
      t.h_ = 0 ∧ sampleKernel.h_ = 5 ∧ t ≠ sampleKernel) := by
  refine ⟨⟨_, initialize_of_nonpos sampleShape (-3) sampleKernel (by norm_num), ?_⟩,
    ⟨_, initialize_of_nonpos sampleShape 0 sampleKernel (by norm_num), ?_⟩⟩
  · refine ⟨rfl, by norm_num, rfl, rfl, ?_⟩
    intro hne
    have e := congrArg Kernel.h_ hne
    norm_num [sampleKernel] at e
  · refine ⟨rfl, rfl, ?_⟩
    intro hne
    have e := congrArg Kernel.h_ hne
    norm_num [sampleKernel] at e

/-- C12, amended: for `h ≤ 0`, `initialize(h)` stores `h` in `h_` (and `1 / h`
in `inv_h_` when `h < 0`), then stops the process with status 1 and does not
return; the outcome is the same for every kernel family, and the name, the nine
factors and the cutoff are those of the prior state. -/
theorem initialize_nonpos_frame (K : KernelShape) (h : ℚ) (s : Kernel) (hle : h ≤ 0) :
    ∃ t, Kernel.initialize_ K h s = Outcome.exited 1 t ∧
      (∀ u, Kernel.initialize_ K h s ≠ Outcome.returned u) ∧
      (∀ K2 : KernelShape, Kernel.initialize_ K2 h s = Outcome.exited 1 t) ∧
      t.h_ = h ∧ (h < 0 → t.inv_h_ = 1 / h) ∧
      t.kernel_name_ = s.kernel_name_ ∧
      (t.factor_W_1D_ = s.factor_W_1D_ ∧ t.factor_W_2D_ = s.factor_W_2D_ ∧
        t.factor_W_3D_ = s.factor_W_3D_) ∧
      (t.factor_dW_1D_ = s.factor_dW_1D_ ∧ t.factor_dW_2D_ = s.factor_dW_2D_ ∧
        t.factor_dW_3D_ = s.factor_dW_3D_) ∧
      (t.factor_d2W_1D_ = s.factor_d2W_1D_ ∧ t.factor_d2W_2D_ = s.factor_d2W_2D_ ∧
        t.factor_d2W_3D_ = s.factor_d2W_3D_) ∧
      t.cutoff_radius_ref_ = s.cutoff_radius_ref_ := by
  refine ⟨_, initialize_of_nonpos K h s hle, ?_,
    fun K2 => initialize_of_nonpos K2 h s hle, rfl, fun _ => rfl, rfl,
    ⟨rfl, rfl, rfl⟩, ⟨rfl, rfl, rfl⟩, ⟨rfl, rfl, rfl⟩, rfl⟩
  intro u hu
  rw [initialize_of_nonpos K h s hle] at hu
  cases hu

/-- Evaluation of the amended C12 on the sample kernel family at `h = -3`. -/
theorem initialize_nonpos_frame_witness :
    ∃ t, Kernel.initialize_ sampleShape (-3) sampleKernel = Outcome.exited 1 t ∧
      (∀ u, Kernel.initialize_ sampleShape (-3) sampleKernel ≠ Outcome.returned u) ∧
      (∀ K2 : KernelShape, Kernel.initialize_ K2 (-3) sampleKernel = Outcome.exited 1 t) ∧
      t.h_ = -3 ∧ ((-3 : ℚ) < 0 → t.inv_h_ = 1 / (-3)) ∧
      t.kernel_name_ = sampleKernel.kernel_name_ ∧
      (t.factor_W_1D_ = sampleKernel.factor_W_1D_ ∧
        t.factor_W_2D_ = sampleKernel.factor_W_2D_ ∧
        t.factor_W_3D_ = sampleKernel.factor_W_3D_) ∧
      (t.factor_dW_1D_ = sampleKernel.factor_dW_1D_ ∧
        t.factor_dW_2D_ = sampleKernel.factor_dW_2D_ ∧
        t.factor_dW_3D_ = sampleKernel.factor_dW_3D_) ∧
      (t.factor_d2W_1D_ = sampleKernel.factor_d2W_1D_ ∧
        t.factor_d2W_2D_ = sampleKernel.factor_d2W_2D_ ∧
        t.factor_d2W_3D_ = sampleKernel.factor_d2W_3D_) ∧
      t.cutoff_radius_ref_ = sampleKernel.cutoff_radius_ref_ :=
  initialize_nonpos_frame sampleShape (-3) sampleKernel (by norm_num)

/-! Self-contribution against the weight at zero distance -/

/-- C13, as the claim states it, fails: for the kernel family whose shape
functions take the value 2 at zero distance, `W0(1, ·)` on the sample object is
`11`, `13`, `17` in 1D, 2D, 3D while `W(1, 0, ·)` is `22`, `26`, `34`. -/
theorem W0_differs_from_W_at_zero :
    (Kernel.W0_Real peakTwoShape sampleKernel 1 0 = 11 ∧
      Kernel.W_h_ratio_Real peakTwoShape sampleKernel 1 0 0 = 22) ∧
    (Kernel.W0_Vec2d peakTwoShape sampleKernel 1 { x := 0, y := 0 } = 13 ∧
      Kernel.W_h_ratio_Vec2d peakTwoShape sampleKernel 1 0 { x := 0, y := 0 } = 26) ∧
    (Kernel.W0_Vec3d peakTwoShape sampleKernel 1 { x := 0, y := 0, z := 0 } = 17 ∧
      Kernel.W_h_ratio_Vec3d peakTwoShape sampleKernel 1 0 { x := 0, y := 0, z := 0 } = 34) ∧
    Kernel.W0_Real peakTwoShape sampleKernel 1 0
      ≠ Kernel.W_h_ratio_Real peakTwoShape sampleKernel 1 0 0 := by
  norm_num [Kernel.W0_Real, Kernel.W0_Vec2d, Kernel.W0_Vec3d, Kernel.W_h_ratio_Real,
    Kernel.W_h_ratio_Vec2d, Kernel.W_h_ratio_Vec3d, peakTwoShape, sampleShape, sampleKernel]

/-- C13, amended: in every state and for every ratio, the variable-length weight
at `r = 0` is the shape function's value at zero times `W0`, for each dimension;
hence `W0` equals that weight whenever the shape function of the dimension takes
the value 1 at zero distance. -/
theorem W0_eq_W_at_zero_of_unit_peak (K : KernelShape) (s : Kernel) (ratio : ℚ)
    (x1 : ℚ) (x2 : Vec2d) (x3 : Vec3d) :
    (Kernel.W_h_ratio_Real K s ratio 0 x1 = K.W_1D 0 * Kernel.W0_Real K s ratio x1 ∧
      Kernel.W_h_ratio_Vec2d K s ratio 0 x2 = K.W_2D 0 * Kernel.W0_Vec2d K s ratio x2 ∧
      Kernel.W_h_ratio_Vec3d K s ratio 0 x3 = K.W_3D 0 * Kernel.W0_Vec3d K s ratio x3) ∧
    (K.W_1D 0 = 1 → Kernel.W0_Real K s ratio x1 = Kernel.W_h_ratio_Real K s ratio 0 x1) ∧
    (K.W_2D 0 = 1 → Kernel.W0_Vec2d K s ratio x2 = Kernel.W_h_ratio_Vec2d K s ratio 0 x2) ∧
    (K.W_3D 0 = 1 → Kernel.W0_Vec3d K s ratio x3 = Kernel.W_h_ratio_Vec3d K s ratio 0 x3) := by
  refine ⟨⟨?_, ?_, ?_⟩, ?_, ?_, ?_⟩
  · simp only [Kernel.W_h_ratio_Real, Kernel.W0_Real, zero_mul]
    ring
  · simp only [Kernel.W_h_ratio_Vec2d, Kernel.W0_Vec2d, zero_mul]
    ring
  · simp only [Kernel.W_h_ratio_Vec3d, Kernel.W0_Vec3d, zero_mul]
    ring
  · intro h1
    simp only [Kernel.W_h_ratio_Real, Kernel.W0_Real, zero_mul, h1, mul_one]
  · intro h1
    simp only [Kernel.W_h_ratio_Vec2d, Kernel.W0_Vec2d, zero_mul, h1, mul_one]
  · intro h1
    simp only [Kernel.W_h_ratio_Vec3d, Kernel.W0_Vec3d, zero_mul, h1, mul_one]

/-- Evaluation of the amended C13 on the sample kernel family, whose 2D shape
function is `(1 - q / 2) ^ 3`, at ratio 3. -/
theorem W0_eq_W_at_zero_of_unit_peak_witness :
    sampleShape.W_2D 0 = 1 ∧
    Kernel.W0_Vec2d sampleShape sampleKernel 3 { x := 0, y := 0 }
      = Kernel.W_h_ratio_Vec2d sampleShape sampleKernel 3 0 { x := 0, y := 0 } :=
  ⟨by norm_num [sampleShape],
    (W0_eq_W_at_zero_of_unit_peak sampleShape sampleKernel 3 0 { x := 0, y := 0 }
      { x := 0, y := 0, z := 0 }).2.2.1 (by norm_num [sampleShape])⟩

/-! Evaluation after a reduction -/

/-- C14: after `reduceOnce()` each of the seven 1D evaluations returns 0, for
every distance, ratio and kernel family; after `reduceTwice()` each of the seven
1D and of the seven 2D evaluations returns 0. -/
theorem discarded_dimension_evaluates_to_zero (K : KernelShape) (s : Kernel)
    (ratio r : ℚ) (x1 : ℚ) (x2 : Vec2d) :
    (Kernel.W_Real K (Kernel.reduceOnce K s) r x1 = 0 ∧
      Kernel.dW_Real K (Kernel.reduceOnce K s) r x1 = 0 ∧
      Kernel.d2W_Real K (Kernel.reduceOnce K s) r x1 = 0 ∧
      Kernel.W_h_ratio_Real K (Kernel.reduceOnce K s) ratio r x1 = 0 ∧
      Kernel.dW_h_ratio_Real K (Kernel.reduceOnce K s) ratio r x1 = 0 ∧
      Kernel.d2W_h_ratio_Real K (Kernel.reduceOnce K s) ratio r x1 = 0 ∧
      Kernel.W0_Real K (Kernel.reduceOnce K s) ratio x1 = 0) ∧
    (Kernel.W_Real K (Kernel.reduceTwice K s) r x1 = 0 ∧
      Kernel.dW_Real K (Kernel.reduceTwice K s) r x1 = 0 ∧
      Kernel.d2W_Real K (Kernel.reduceTwice K s) r x1 = 0 ∧
      Kernel.W_h_ratio_Real K (Kernel.reduceTwice K s) ratio r x1 = 0 ∧
      Kernel.dW_h_ratio_Real K (Kernel.reduceTwice K s) ratio r x1 = 0 ∧
      Kernel.d2W_h_ratio_Real K (Kernel.reduceTwice K s) ratio r x1 = 0 ∧
      Kernel.W0_Real K (Kernel.reduceTwice K s) ratio x1 = 0) ∧
    (Kernel.W_Vec2d K (Kernel.reduceTwice K s) r x2 = 0 ∧
      Kernel.dW_Vec2d K (Kernel.reduceTwice K s) r x2 = 0 ∧
      Kernel.d2W_Vec2d K (Kernel.reduceTwice K s) r x2 = 0 ∧
      Kernel.W_h_ratio_Vec2d K (Kernel.reduceTwice K s) ratio r x2 = 0 ∧
      Kernel.dW_h_ratio_Vec2d K (Kernel.reduceTwice K s) ratio r x2 = 0 ∧
      Kernel.d2W_h_ratio_Vec2d K (Kernel.reduceTwice K s) ratio r x2 = 0 ∧
      Kernel.W0_Vec2d K (Kernel.reduceTwice K s) ratio x2 = 0) := by
  refine ⟨?_, ?_, ?_⟩
  · simp [Kernel.W_Real, Kernel.dW_Real, Kernel.d2W_Real, Kernel.W_h_ratio_Real,
      Kernel.dW_h_ratio_Real, Kernel.d2W_h_ratio_Real, Kernel.W0_Real, Kernel.reduceOnce,
      Kernel.setDerivativeParameters]
  · simp [Kernel.W_Real, Kernel.dW_Real, Kernel.d2W_Real, Kernel.W_h_ratio_Real,
      Kernel.dW_h_ratio_Real, Kernel.d2W_h_ratio_Real, Kernel.W0_Real, Kernel.reduceTwice,
      Kernel.setDerivativeParameters]
  · simp [Kernel.W_Vec2d, Kernel.dW_Vec2d, Kernel.d2W_Vec2d, Kernel.W_h_ratio_Vec2d,
      Kernel.dW_h_ratio_Vec2d, Kernel.d2W_h_ratio_Vec2d, Kernel.W0_Vec2d, Kernel.reduceTwice,
      Kernel.setDerivativeParameters]

/-! Algebra of the reductions -/

/-- C15: for every kernel family, `reduceOnce` sends two distinct states that
satisfy all invariants of the data model and differ only in the 3D factors to
the same state; `reduceTwice` does so for two such states differing only in the
3D factors and for two differing only in the 2D factors; hence neither
reduction is injective and neither has a left inverse. -/
theorem reductions_not_invertible (K : KernelShape) :
    (unitState K 1 1 1 ≠ unitState K 1 1 2 ∧
      StateInvariant K (unitState K 1 1 1) ∧ StateInvariant K (unitState K 1 1 2) ∧
      AgreeOutside3D (unitState K 1 1 1) (unitState K 1 1 2) ∧
      Kernel.reduceOnce K (unitState K 1 1 1) = Kernel.reduceOnce K (unitState K 1 1 2) ∧
      Kernel.reduceTwice K (unitState K 1 1 1) = Kernel.reduceTwice K (unitState K 1 1 2)) ∧
    (unitState K 1 1 1 ≠ unitState K 1 2 1 ∧
      StateInvariant K (unitState K 1 1 1) ∧ StateInvariant K (unitState K 1 2 1) ∧
      AgreeOutside2D (unitState K 1 1 1) (unitState K 1 2 1) ∧
      Kernel.reduceTwice K (unitState K 1 1 1) = Kernel.reduceTwice K (unitState K 1 2 1)) ∧
    (¬ Function.Injective (Kernel.reduceOnce K) ∧
      ¬ Function.Injective (Kernel.reduceTwice K)) ∧
    (¬ ∃ inv : Kernel → Kernel, ∀ s, inv (Kernel.reduceOnce K s) = s) ∧
    (¬ ∃ inv : Kernel → Kernel, ∀ s, inv (Kernel.reduceTwice K s) = s) := by
  have hne3 : unitState K 1 1 1 ≠ unitState K 1 1 2 := by
    intro heq
    have e := congrArg Kernel.factor_W_3D_ heq
    rw [unitState_factor_W_3D, unitState_factor_W_3D] at e
    norm_num at e
  have hne2 : unitState K 1 1 1 ≠ unitState K 1 2 1 := by
    intro heq
    have e := congrArg Kernel.factor_W_2D_ heq
    rw [unitState_factor_W_2D, unitState_factor_W_2D] at e
    norm_num at e
  have hOnce : Kernel.reduceOnce K (unitState K 1 1 1)
      = Kernel.reduceOnce K (unitState K 1 1 2) := by
    simp [Kernel.reduceOnce, unitState, Kernel.setDerivativeParameters]
  have hTwice3 : Kernel.reduceTwice K (unitState K 1 1 1)
      = Kernel.reduceTwice K (unitState K 1 1 2) := by
    simp [Kernel.reduceTwice, unitState, Kernel.setDerivativeParameters]
  have hTwice2 : Kernel.reduceTwice K (unitState K 1 1 1)
      = Kernel.reduceTwice K (unitState K 1 2 1) := by
    simp [Kernel.reduceTwice, unitState, Kernel.setDerivativeParameters]
  refine ⟨⟨hne3, unitState_stateInvariant K 1 1 1, unitState_stateInvariant K 1 1 2, ?_,
      hOnce, hTwice3⟩,
    ⟨hne2, unitState_stateInvariant K 1 1 1, unitState_stateInvariant K 1 2 1, ?_, hTwice2⟩,
    ⟨fun hinj => hne3 (hinj hOnce), fun hinj => hne3 (hinj hTwice3)⟩, ?_, ?_⟩
  · simp [AgreeOutside3D, unitState, Kernel.setDerivativeParameters]
  · simp [AgreeOutside2D, unitState, Kernel.setDerivativeParameters]
  · rintro ⟨inv, hinv⟩
    apply hne3
    rw [← hinv (unitState K 1 1 1), ← hinv (unitState K 1 1 2), hOnce]
  · rintro ⟨inv, hinv⟩
    apply hne3
    rw [← hinv (unitState K 1 1 1), ← hinv (unitState K 1 1 2), hTwice3]

/-- C16: `reduceOnce()` applied twice gives the same object as `reduceTwice()`
applied once, on every member. -/
theorem reduceOnce_twice_eq_reduceTwice (K : KernelShape) (s : Kernel) :
    Kernel.reduceOnce K (Kernel.reduceOnce K s) = Kernel.reduceTwice K s := by
  simp [Kernel.reduceOnce, Kernel.reduceTwice, Kernel.setDerivativeParameters]

/-! Evaluation after setup -/

/-- C17: for `h > 0` and a basic-factor routine that writes only the three W
factors, `initialize(h)` returns a state whose W factors are the ones the
routine left, and in which, for every `r` and each dimension `d` with that
factor `F_d`, `W = F_d * W_d(r / h)`, `dW = F_d / h * dW_d(r / h)` and
`d2W = F_d / h ^ 2 * d2W_d(r / h)`. -/
theorem evaluation_after_setup (K : KernelShape) (h : ℚ) (s : Kernel) (hpos : 0 < h)
    (hK : WritesOnlyWFactors K.setBasicParameters) (r : ℚ)
    (x1 : ℚ) (x2 : Vec2d) (x3 : Vec3d) :
    ∃ t, Kernel.initialize_ K h s = Outcome.returned t ∧
      (t.factor_W_1D_
          = (K.setBasicParameters { s with h_ := h, inv_h_ := 1 / h }).factor_W_1D_ ∧
        t.factor_W_2D_
          = (K.setBasicParameters { s with h_ := h, inv_h_ := 1 / h }).factor_W_2D_ ∧
        t.factor_W_3D_
          = (K.setBasicParameters { s with h_ := h, inv_h_ := 1 / h }).factor_W_3D_) ∧
      (Kernel.W_Real K t r x1 = t.factor_W_1D_ * K.W_1D (r / h) ∧
        Kernel.W_Vec2d K t r x2 = t.factor_W_2D_ * K.W_2D (r / h) ∧
        Kernel.W_Vec3d K t r x3 = t.factor_W_3D_ * K.W_3D (r / h)) ∧
      (Kernel.dW_Real K t r x1 = t.factor_W_1D_ / h * K.dW_1D (r / h) ∧
        Kernel.dW_Vec2d K t r x2 = t.factor_W_2D_ / h * K.dW_2D (r / h) ∧
        Kernel.dW_Vec3d K t r x3 = t.factor_W_3D_ / h * K.dW_3D (r / h)) ∧
      (Kernel.d2W_Real K t r x1 = t.factor_W_1D_ / h ^ 2 * K.d2W_1D (r / h) ∧
        Kernel.d2W_Vec2d K t r x2 = t.factor_W_2D_ / h ^ 2 * K.d2W_2D (r / h) ∧
        Kernel.d2W_Vec3d K t r x3 = t.factor_W_3D_ / h ^ 2 * K.d2W_3D (r / h)) := by
  have e2 := hK.inv_h_eq { s with h_ := h, inv_h_ := 1 / h }
  refine ⟨_, initialize_of_pos K h s hpos, ⟨rfl, rfl, rfl⟩, ⟨?_, ?_, ?_⟩, ⟨?_, ?_, ?_⟩,
    ⟨?_, ?_, ?_⟩⟩ <;>
  simp only [Kernel.W_Real, Kernel.W_Vec2d, Kernel.W_Vec3d, Kernel.dW_Real, Kernel.dW_Vec2d,
    Kernel.dW_Vec3d, Kernel.d2W_Real, Kernel.d2W_Vec2d, Kernel.d2W_Vec3d,
    Kernel.setDerivativeParameters, e2, mul_one_div] <;>
  ring

/-- Evaluation of C17 on the sample kernel family at `h = 2`, `r = 1`. -/
theorem evaluation_after_setup_witness :
    ∃ t, Kernel.initialize_ sampleShape 2 sampleKernel = Outcome.returned t ∧
      (t.factor_W_1D_
          = (sampleShape.setBasicParameters
              { sampleKernel with h_ := 2, inv_h_ := 1 / 2 }).factor_W_1D_ ∧
        t.factor_W_2D_
          = (sampleShape.setBasicParameters
              { sampleKernel with h_ := 2, inv_h_ := 1 / 2 }).factor_W_2D_ ∧
        t.factor_W_3D_
          = (sampleShape.setBasicParameters
              { sampleKernel with h_ := 2, inv_h_ := 1 / 2 }).factor_W_3D_) ∧
      (Kernel.W_Real sampleShape t 1 0 = t.factor_W_1D_ * sampleShape.W_1D (1 / 2) ∧
        Kernel.W_Vec2d sampleShape t 1 { x := 0, y := 0 }
          = t.factor_W_2D_ * sampleShape.W_2D (1 / 2) ∧
        Kernel.W_Vec3d sampleShape t 1 { x := 0, y := 0, z := 0 }
          = t.factor_W_3D_ * sampleShape.W_3D (1 / 2)) ∧
      (Kernel.dW_Real sampleShape t 1 0 = t.factor_W_1D_ / 2 * sampleShape.dW_1D (1 / 2) ∧
        Kernel.dW_Vec2d sampleShape t 1 { x := 0, y := 0 }
          = t.factor_W_2D_ / 2 * sampleShape.dW_2D (1 / 2) ∧
        Kernel.dW_Vec3d sampleShape t 1 { x := 0, y := 0, z := 0 }
          = t.factor_W_3D_ / 2 * sampleShape.dW_3D (1 / 2)) ∧
      (Kernel.d2W_Real sampleShape t 1 0
          = t.factor_W_1D_ / 2 ^ 2 * sampleShape.d2W_1D (1 / 2) ∧
        Kernel.d2W_Vec2d sampleShape t 1 { x := 0, y := 0 }
          = t.factor_W_2D_ / 2 ^ 2 * sampleShape.d2W_2D (1 / 2) ∧
        Kernel.d2W_Vec3d sampleShape t 1 { x := 0, y := 0, z := 0 }
          = t.factor_W_3D_ / 2 ^ 2 * sampleShape.d2W_3D (1 / 2)) :=
  evaluation_after_setup sampleShape 2 sampleKernel (by norm_num)
    sampleShape_writesOnlyWFactors 1 0 { x := 0, y := 0 } { x := 0, y := 0, z := 0 }

/-! Role of the displacement argument -/

/-- C18: the value of the displacement (or point) argument is never read: each
of the twenty-one overloads returns the same value for any two displacements of
its dimension. -/
theorem displacement_value_not_read (K : KernelShape) (s : Kernel) (ratio r : ℚ)
    (x1 y1 : ℚ) (x2 y2 : Vec2d) (x3 y3 : Vec3d) :
    (Kernel.W_Real K s r x1 = Kernel.W_Real K s r y1 ∧
      Kernel.W_Vec2d K s r x2 = Kernel.W_Vec2d K s r y2 ∧
      Kernel.W_Vec3d K s r x3 = Kernel.W_Vec3d K s r y3) ∧
    (Kernel.dW_Real K s r x1 = Kernel.dW_Real K s r y1 ∧
      Kernel.dW_Vec2d K s r x2 = Kernel.dW_Vec2d K s r y2 ∧
      Kernel.dW_Vec3d K s r x3 = Kernel.dW_Vec3d K s r y3) ∧
    (Kernel.d2W_Real K s r x1 = Kernel.d2W_Real K s r y1 ∧
      Kernel.d2W_Vec2d K s r x2 = Kernel.d2W_Vec2d K s r y2 ∧
      Kernel.d2W_Vec3d K s r x3 = Kernel.d2W_Vec3d K s r y3) ∧
    (Kernel.W_h_ratio_Real K s ratio r x1 = Kernel.W_h_ratio_Real K s ratio r y1 ∧
      Kernel.W_h_ratio_Vec2d K s ratio r x2 = Kernel.W_h_ratio_Vec2d K s ratio r y2 ∧
      Kernel.W_h_ratio_Vec3d K s ratio r x3 = Kernel.W_h_ratio_Vec3d K s ratio r y3) ∧
    (Kernel.dW_h_ratio_Real K s ratio r x1 = Kernel.dW_h_ratio_Real K s ratio r y1 ∧
      Kernel.dW_h_ratio_Vec2d K s ratio r x2 = Kernel.dW_h_ratio_Vec2d K s ratio r y2 ∧
      Kernel.dW_h_ratio_Vec3d K s ratio r x3 = Kernel.dW_h_ratio_Vec3d K s ratio r y3) ∧
    (Kernel.d2W_h_ratio_Real K s ratio r x1 = Kernel.d2W_h_ratio_Real K s ratio r y1 ∧
      Kernel.d2W_h_ratio_Vec2d K s ratio r x2 = Kernel.d2W_h_ratio_Vec2d K s ratio r y2 ∧
      Kernel.d2W_h_ratio_Vec3d K s ratio r x3 = Kernel.d2W_h_ratio_Vec3d K s ratio r y3) ∧
    (Kernel.W0_Real K s ratio x1 = Kernel.W0_Real K s ratio y1 ∧
      Kernel.W0_Vec2d K s ratio x2 = Kernel.W0_Vec2d K s ratio y2 ∧
      Kernel.W0_Vec3d K s ratio x3 = Kernel.W0_Vec3d K s ratio y3) :=
  ⟨⟨rfl, rfl, rfl⟩, ⟨rfl, rfl, rfl⟩, ⟨rfl, rfl, rfl⟩, ⟨rfl, rfl, rfl⟩, ⟨rfl, rfl, rfl⟩,
    ⟨rfl, rfl, rfl⟩, ⟨rfl, rfl, rfl⟩⟩

/-! Variable smoothing length against the base overloads -/

/-- C19: each variable-smoothing-length overload equals the length correction of
its dimension at `ratio` times the base overload of the same kind and dimension
at the distance `ratio * r`, for `W`, `dW` and `d2W` alike; at `ratio = 1` it is
the base overload at `r` times the length correction at 1. -/
theorem h_ratio_overload_as_rescaled_base (K : KernelShape) (s : Kernel) (ratio r : ℚ)
    (x1 : ℚ) (x2 : Vec2d) (x3 : Vec3d) :
    ((Kernel.W_h_ratio_Real K s ratio r x1
          = K.SmoothingLengthFactor1D ratio * Kernel.W_Real K s (ratio * r) x1 ∧
        Kernel.W_h_ratio_Vec2d K s ratio r x2
          = K.SmoothingLengthFactor2D ratio * Kernel.W_Vec2d K s (ratio * r) x2 ∧
        Kernel.W_h_ratio_Vec3d K s ratio r x3
          = K.SmoothingLengthFactor3D ratio * Kernel.W_Vec3d K s (ratio * r) x3) ∧
      (Kernel.dW_h_ratio_Real K s ratio r x1
          = K.SmoothingLengthFactor1D ratio * Kernel.dW_Real K s (ratio * r) x1 ∧
        Kernel.dW_h_ratio_Vec2d K s ratio r x2
          = K.SmoothingLengthFactor2D ratio * Kernel.dW_Vec2d K s (ratio * r) x2 ∧
        Kernel.dW_h_ratio_Vec3d K s ratio r x3
          = K.SmoothingLengthFactor3D ratio * Kernel.dW_Vec3d K s (ratio * r) x3) ∧
      (Kernel.d2W_h_ratio_Real K s ratio r x1
          = K.SmoothingLengthFactor1D ratio * Kernel.d2W_Real K s (ratio * r) x1 ∧
        Kernel.d2W_h_ratio_Vec2d K s ratio r x2
          = K.SmoothingLengthFactor2D ratio * Kernel.d2W_Vec2d K s (ratio * r) x2 ∧
        Kernel.d2W_h_ratio_Vec3d K s ratio r x3
          = K.SmoothingLengthFactor3D ratio * Kernel.d2W_Vec3d K s (ratio * r) x3)) ∧
    ((Kernel.W_h_ratio_Real K s 1 r x1
          = Kernel.W_Real K s r x1 * K.SmoothingLengthFactor1D 1 ∧
        Kernel.W_h_ratio_Vec2d K s 1 r x2
          = Kernel.W_Vec2d K s r x2 * K.SmoothingLengthFactor2D 1 ∧
        Kernel.W_h_ratio_Vec3d K s 1 r x3
          = Kernel.W_Vec3d K s r x3 * K.SmoothingLengthFactor3D 1) ∧
      (Kernel.dW_h_ratio_Real K s 1 r x1
          = Kernel.dW_Real K s r x1 * K.SmoothingLengthFactor1D 1 ∧
        Kernel.dW_h_ratio_Vec2d K s 1 r x2
          = Kernel.dW_Vec2d K s r x2 * K.SmoothingLengthFactor2D 1 ∧
        Kernel.dW_h_ratio_Vec3d K s 1 r x3
          = Kernel.dW_Vec3d K s r x3 * K.SmoothingLengthFactor3D 1) ∧
      (Kernel.d2W_h_ratio_Real K s 1 r x1
          = Kernel.d2W_Real K s r x1 * K.SmoothingLengthFactor1D 1 ∧
        Kernel.d2W_h_ratio_Vec2d K s 1 r x2
          = Kernel.d2W_Vec2d K s r x2 * K.SmoothingLengthFactor2D 1 ∧
        Kernel.d2W_h_ratio_Vec3d K s 1 r x3
          = Kernel.d2W_Vec3d K s r x3 * K.SmoothingLengthFactor3D 1)) := by
  have hq : r * s.inv_h_ * ratio = ratio * r * s.inv_h_ := by ring
  refine ⟨?_, ?_⟩
  · simp only [Kernel.W_h_ratio_Real, Kernel.W_h_ratio_Vec2d, Kernel.W_h_ratio_Vec3d,
      Kernel.dW_h_ratio_Real, Kernel.dW_h_ratio_Vec2d, Kernel.dW_h_ratio_Vec3d,
      Kernel.d2W_h_ratio_Real, Kernel.d2W_h_ratio_Vec2d, Kernel.d2W_h_ratio_Vec3d,
      Kernel.W_Real, Kernel.W_Vec2d, Kernel.W_Vec3d, Kernel.dW_Real, Kernel.dW_Vec2d,
      Kernel.dW_Vec3d, Kernel.d2W_Real, Kernel.d2W_Vec2d, Kernel.d2W_Vec3d, hq]
    refine ⟨⟨?_, ?_, ?_⟩, ⟨?_, ?_, ?_⟩, ⟨?_, ?_, ?_⟩⟩ <;> ring
  · simp only [Kernel.W_h_ratio_Real, Kernel.W_h_ratio_Vec2d, Kernel.W_h_ratio_Vec3d,
      Kernel.dW_h_ratio_Real, Kernel.dW_h_ratio_Vec2d, Kernel.dW_h_ratio_Vec3d,
      Kernel.d2W_h_ratio_Real, Kernel.d2W_h_ratio_Vec2d, Kernel.d2W_h_ratio_Vec3d,
      Kernel.W_Real, Kernel.W_Vec2d, Kernel.W_Vec3d, Kernel.dW_Real, Kernel.dW_Vec2d,
      Kernel.dW_Vec3d, Kernel.d2W_Real, Kernel.d2W_Vec2d, Kernel.d2W_Vec3d, mul_one,
      and_self]

end SPH
